import Mathlib

/-!
Verification development for the barter-rs market-data fork.

The Bybit L2 order-book updater (`exchange/bybit/book/l2.rs`), the Bybit
message decoding helpers (`exchange/bybit/message.rs`) and the OKX
order-book to L1 conversion (`exchange/okx/book/mod.rs`) are embedded as
executable Lean functions.  Prices, amounts and ids use `ℚ` / `ℤ` / `ℕ`
in place of `f64` / `i64` / `u64`; the exercised values are small, so no
overflow or rounding is observable.  The shared container types of
`subscription/book.rs` (`Level`, `OrderBookSide`, `OrderBook`,
`OrderBookL1`) are not among the provided sources and are modelled from
the specification, as marked on each definition.
-/

deriving instance DecidableEq for Except

namespace Barter

/-- Modelled from the spec: `Level` of `subscription/book.rs` (not in the
provided sources), a (price, amount) pair (spec §3). -/
structure Level where
  price : ℚ
  amount : ℚ
deriving DecidableEq, Repr

/-- Side of the book: `barter_integration::model::Side` (Buy/Sell). -/
inductive Side where
  | buy
  | sell
deriving DecidableEq, Repr

/-- Modelled from the spec: price-priority order of `subscription/book.rs`
sides (spec §4.1): bids sort descending, asks ascending.  `Side.ordBefore s p q`
holds when price `p` sorts strictly before price `q` on side `s`. -/
def Side.ordBefore : Side → ℚ → ℚ → Prop
  | .buy, p, q => q < p
  | .sell, p, q => p < q

instance (s : Side) (p q : ℚ) : Decidable (Side.ordBefore s p q) := by
  cases s <;> (unfold Side.ordBefore; infer_instance)

/-- Modelled from the spec: sorted insertion used by `BookSide` (spec §4.1);
an equal price replaces the existing level (last write wins). -/
def insertLevel (s : Side) (l : Level) : List Level → List Level
  | [] => [l]
  | x :: xs =>
    if l.price = x.price then l :: xs
    else if Side.ordBefore s l.price x.price then l :: x :: xs
    else x :: insertLevel s l xs

/-- Modelled from the spec: `BookSide` of `subscription/book.rs` (spec §3),
an ordered sequence of levels belonging to one side. -/
structure OrderBookSide where
  side : Side
  levels : List Level
deriving DecidableEq, Repr

/-- Modelled from the spec: one step of `BookSide::upsert` (spec §4.1):
`amount == 0` removes the level at that price (no-op when absent), otherwise
replace or insert preserving sort order. -/
def upsertOne (s : Side) (acc : List Level) (l : Level) : List Level :=
  if l.amount = 0 then acc.filter (fun x => decide (x.price ≠ l.price))
  else insertLevel s l acc

/-- Modelled from the spec: `BookSide::upsert` (spec §4.1), folding the batch
left to right so that the last write per price wins. -/
def OrderBookSide.upsert (obs : OrderBookSide) (levels : List Level) : OrderBookSide :=
  { obs with levels := levels.foldl (upsertOne obs.side) obs.levels }

/-- Modelled from the spec: `OrderBookSide::new` (spec §4.1): filters
`amount == 0`, sorts per side, deduplicates on price (last wins). -/
def OrderBookSide.new (s : Side) (levels : List Level) : OrderBookSide :=
  ⟨s, (levels.filter (fun l => decide (l.amount ≠ 0))).foldl
        (fun acc l => insertLevel s l acc) []⟩

/-- Modelled from the spec: `BookSide::best` (spec §4.1), the first element
in price-priority order. -/
def OrderBookSide.best (obs : OrderBookSide) : Option Level :=
  obs.levels.head?

/-- Modelled from the spec: `OrderBook` of `subscription/book.rs` (spec §3).
`last_update_time` is a Utc timestamp, embedded as epoch milliseconds. -/
structure OrderBook where
  last_update_time : ℤ
  bids : OrderBookSide
  asks : OrderBookSide
deriving DecidableEq, Repr

/-- Modelled from the spec: `OrderBook::snapshot` (spec §4.2), a deep
immutable copy; in a pure model this is the book value itself. -/
def OrderBook.snapshot (b : OrderBook) : OrderBook := b

/-- `BybitLevel` of `exchange/bybit/book/mod.rs`: a (price, amount) pair
deserialized from decimal strings. -/
structure BybitLevel where
  price : ℚ
  amount : ℚ
deriving DecidableEq, Repr

/-- `From<BybitLevel> for Level` of `exchange/bybit/book/mod.rs`. -/
def BybitLevel.toLevel (l : BybitLevel) : Level := ⟨l.price, l.amount⟩

/-- `BybitOrderBookInner` of `exchange/bybit/book/mod.rs`: bids, asks,
`u` (update_id, i64) and `seq` (i64). -/
structure BybitOrderBookInner where
  bids : List BybitLevel
  asks : List BybitLevel
  update_id : ℤ
  seq : ℤ
deriving DecidableEq, Repr

/-- `BybitPayload<BybitOrderBookInner, V>` of `exchange/bybit/message.rs`,
with the phantom tag erased: subscription id, the raw `type` tag, the `ts`
timestamp (epoch ms) and the book data.  Both `BybitOrderBookL2Snapshot`
and `BybitOrderBookL2Delta` of `exchange/bybit/book/l2.rs` share this shape. -/
structure BybitBookPayload where
  subscription_id : String
  rtype : String
  time : ℤ
  data : BybitOrderBookInner
deriving DecidableEq, Repr

/-- `From<BybitOrderBookL2Snapshot> for OrderBook` of
`exchange/bybit/book/l2.rs` lines 32-44: builds each side from the
snapshot's levels via `OrderBookSide::new`. -/
def OrderBook.fromBybitSnapshot (s : BybitBookPayload) : OrderBook :=
  { last_update_time := s.time
    bids := OrderBookSide.new .buy (s.data.bids.map BybitLevel.toLevel)
    asks := OrderBookSide.new .sell (s.data.asks.map BybitLevel.toLevel) }

/-- `DataError::InvalidSequence` of `error.rs` with its two `u64` fields,
as constructed by `BybitBookUpdater::validate_delta_update`. -/
inductive DataError where
  | InvalidSequence (prev_last_update_id first_update_id : ℕ)
deriving DecidableEq, Repr

/-- Rust `v.max(0) as u64` applied to an `i64`. -/
def clampU64 (v : ℤ) : ℕ := (max v 0).toNat

/-- `BybitBookUpdater` of `exchange/bybit/book/l2.rs` lines 85-89:
`updates_processed: u64`, `last_update_id: i64`. -/
structure BybitBookUpdater where
  updates_processed : ℕ
  last_update_id : ℤ
deriving DecidableEq, Repr

/-- `BybitBookUpdater::new` (l2.rs lines 94-99). -/
def BybitBookUpdater.new : BybitBookUpdater :=
  { updates_processed := 0, last_update_id := 0 }

/-- `BybitBookUpdater::is_first_update` (l2.rs lines 105-107). -/
def BybitBookUpdater.is_first_update (self : BybitBookUpdater) : Bool :=
  self.updates_processed == 0

/-- `BybitBookUpdater::validate_snapshot_update` (l2.rs lines 125-128):
nothing to validate for a snapshot. -/
def BybitBookUpdater.validate_snapshot_update (_self : BybitBookUpdater)
    (_snapshot : BybitBookPayload) : Except DataError Unit :=
  .ok ()

/-- `BybitBookUpdater::validate_delta_update` (l2.rs lines 130-146):
reject `update_id == 1` (reserved for the initial snapshot); for a
non-first update also reject `update_id != last_update_id + 1`. -/
def BybitBookUpdater.validate_delta_update (self : BybitBookUpdater)
    (delta : BybitBookPayload) : Except DataError Unit :=
  if delta.data.update_id = 1 then
    .error (.InvalidSequence (clampU64 self.last_update_id)
      (clampU64 delta.data.update_id))
  else if ¬ self.is_first_update ∧ delta.data.update_id ≠ self.last_update_id + 1 then
    .error (.InvalidSequence (clampU64 self.last_update_id)
      (clampU64 delta.data.update_id))
  else
    .ok ()

/-- `BybitBookUpdate` of `exchange/bybit/book/l2.rs` lines 149-156. -/
inductive BybitBookUpdate where
  | snapshot (s : BybitBookPayload)
  | delta (d : BybitBookPayload)
deriving DecidableEq, Repr

/-- Result of one `BybitBookUpdater::update` call: the (possibly mutated)
`&mut self` and `&mut book`, plus the returned
`Result<Option<OrderBook>, DataError>`. -/
structure UpdateResult where
  updater : BybitBookUpdater
  book : OrderBook
  output : Except DataError (Option OrderBook)
deriving DecidableEq, Repr

/-- `BybitBookUpdater::update` (l2.rs lines 209-237).  The snapshot arm
validates (always ok), sets `last_update_id`, replaces the book and
returns `Ok(Some(book.snapshot()))`.  The delta arm validates (the `?`
returns the error before any mutation), sets the book time, upserts bids
then asks, advances `last_update_id` and `updates_processed`, and returns
`Ok(Some(book.snapshot()))`. -/
def BybitBookUpdater.update (self : BybitBookUpdater) (book : OrderBook)
    (update : BybitBookUpdate) : UpdateResult :=
  match update with
  | .snapshot s =>
    match self.validate_snapshot_update s with
    | .error e => ⟨self, book, .error e⟩
    | .ok () =>
      let updater := { self with last_update_id := s.data.update_id }
      let book := OrderBook.fromBybitSnapshot s
      ⟨updater, book, .ok (some book.snapshot)⟩
  | .delta d =>
    match self.validate_delta_update d with
    | .error e => ⟨self, book, .error e⟩
    | .ok () =>
      let book :=
        { last_update_time := d.time
          bids := book.bids.upsert (d.data.bids.map BybitLevel.toLevel)
          asks := book.asks.upsert (d.data.asks.map BybitLevel.toLevel) }
      let updater :=
        { self with
            last_update_id := d.data.update_id
            updates_processed := self.updates_processed + 1 }
      ⟨updater, book, .ok (some book.snapshot)⟩

/-- `OxkLevel` of `exchange/okx/book/mod.rs`: price, amount, a deprecated
field and the number of orders, all parsed from decimal strings. -/
structure OxkLevel where
  price : ℚ
  amount : ℚ
  deprecated : ℚ
  no_orders : ℚ
deriving DecidableEq, Repr

/-- `From<OxkLevel> for Level` of `exchange/okx/book/mod.rs`. -/
def OxkLevel.toLevel (l : OxkLevel) : Level := ⟨l.price, l.amount⟩

/-- `OkxOrderBookInner` of `exchange/okx/book/mod.rs`: asks, bids, the
`ts` timestamp (epoch ms), optional checksum and `seqId`. -/
structure OkxOrderBookInner where
  asks : List OxkLevel
  bids : List OxkLevel
  ts : ℤ
  checksum : Option ℤ
  seq_id : ℤ
deriving DecidableEq, Repr

/-- `OkxMessage<T>` of `exchange/okx/message.rs`: subscription id plus a
`data` vector. -/
structure OkxMessage (T : Type) where
  subscription_id : String
  data : List T
deriving DecidableEq, Repr

/-- `OkxOrderBook` alias of `exchange/okx/book/mod.rs`. -/
abbrev OkxOrderBook := OkxMessage OkxOrderBookInner

/-- Modelled from the spec: `OrderBookL1` of `subscription/book.rs`
(spec §4.2 `into_l1`): last update time plus best bid and best ask. -/
structure OrderBookL1 where
  last_update_time : ℤ
  best_bid : Level
  best_ask : Level
deriving DecidableEq, Repr

/-- One `data` entry of the
`From<(ExchangeId, InstrumentId, OkxOrderBook)> for MarketIter` impl of
`exchange/okx/book/mod.rs` lines 48-71: the `OrderBookL1` is built with
`best_bid: book.bids.pop().unwrap().into()` and
`best_ask: book.asks.pop().unwrap().into()`.  `Vec::pop` removes the LAST
element of the vector; `unwrap` on an empty side panics, modelled here as
`none`. -/
def okxBookEventL1 (book : OkxOrderBookInner) : Option OrderBookL1 :=
  match book.bids.getLast?, book.asks.getLast? with
  | some bid, some ask =>
    some { last_update_time := book.ts
           best_bid := bid.toLevel
           best_ask := ask.toLevel }
  | _, _ => none

/-- The whole `From` impl of `exchange/okx/book/mod.rs` lines 48-71, one
`Option OrderBookL1` per `data` entry (`none` where the source panics). -/
def okxOrderBookToL1Events (book : OkxOrderBook) : List (Option OrderBookL1) :=
  book.data.map okxBookEventL1

/-- `BybitChannel::TRADES` of `exchange/bybit/channel.rs`. -/
def bybitChannelTrades : String := "publicTrade"

/-- Rust `input.split('.')` at the character level: every maximal run
between dots, keeping empty pieces (`"" → [""]`, `"a..b" → ["a","","b"]`). -/
def splitDotChars : List Char → List (List Char)
  | [] => [[]]
  | c :: cs =>
    if c = '.' then [] :: splitDotChars cs
    else
      match splitDotChars cs with
      | [] => [[c]]
      | t :: ts => (c :: t) :: ts

/-- Rust `input.split('.')` on a `String`. -/
def splitDot (input : String) : List String :=
  (splitDotChars input.toList).map fun cs => String.mk cs

/-- `de_message_subscription_id` of `exchange/bybit/message.rs`
lines 112-132: split the topic on a dot and match the first three tokens;
`publicTrade.<market>` (exactly two tokens) and
`orderbook.<levels>.<market>` (at least three tokens; later tokens are
never consumed) decode, anything else is a deserialization error. -/
def de_message_subscription_id (input : String) : Except String String :=
  match splitDot input with
  | ["publicTrade", market] => .ok (bybitChannelTrades ++ "|" ++ market)
  | "orderbook" :: levels :: market :: _ =>
    .ok ("orderbook." ++ levels ++ "|" ++ market)
  | _ => .error "invalid message type expected pattern: <type>.<symbol>"

/-- `ValidateType for Snapshot` of `exchange/bybit/message.rs` lines 34-38. -/
def validateTypeSnapshot (val : String) : Bool := val == "snapshot"

/-- `ValidateType for Delta` of `exchange/bybit/message.rs` lines 42-46. -/
def validateTypeDelta (val : String) : Bool := val == "delta"

/-- `de_message_type::<D, V>` of `exchange/bybit/message.rs` lines 134-146:
the raw `type` string is kept only when `V::validate_type` accepts it,
otherwise deserialization of the field fails. -/
def de_message_type (validate : String → Bool) (input : String) :
    Except String String :=
  if validate input then .ok input else .error "invalid message type"

/-- Field-wise deserialization of `BybitPayload<BybitOrderBookInner, V>`
(`exchange/bybit/message.rs` lines 71-87): the `topic` field goes through
`de_message_subscription_id`, the `type` field through
`de_message_type::<D, V>`; the payload deserializes only when every field
deserializer succeeds. -/
def deBybitPayload (validate : String → Bool) (topic ty : String) (time : ℤ)
    (data : BybitOrderBookInner) : Except String BybitBookPayload :=
  match de_message_subscription_id topic with
  | .error e => .error e
  | .ok sid =>
    match de_message_type validate ty with
    | .error e => .error e
    | .ok t => .ok ⟨sid, t, time, data⟩

/-! Concrete inputs used by counterexamples and witnesses. -/

/-- An order book with empty sides (the post-`init` book of l2.rs
lines 200-206, time normalized to 0). -/
def book0 : OrderBook := ⟨0, ⟨.buy, []⟩, ⟨.sell, []⟩⟩

/-- A non-empty book: bids `[(50, 1)]`, asks `[(100, 1)]`. -/
def bookNonEmpty : OrderBook :=
  ⟨0, ⟨.buy, [⟨50, 1⟩]⟩, ⟨.sell, [⟨100, 1⟩]⟩⟩

/-- An updater that has already processed one delta up to id 5. -/
def updaterLive15 : BybitBookUpdater := ⟨1, 5⟩

/-- A delta payload with `update_id = 0` and one bid level. -/
def exDelta0 : BybitBookPayload :=
  ⟨"orderbook.50|ETHUSDT", "delta", 10, ⟨[⟨50, 1⟩], [], 0, 7⟩⟩

/-- A delta payload with the reserved `update_id = 1`. -/
def exDelta1 : BybitBookPayload :=
  ⟨"orderbook.50|ETHUSDT", "delta", 10, ⟨[⟨50, 1⟩], [], 1, 7⟩⟩

/-- A delta payload with `update_id = 2` and one bid level. -/
def exDelta2 : BybitBookPayload :=
  ⟨"orderbook.50|ETHUSDT", "delta", 10, ⟨[⟨50, 1⟩], [], 2, 7⟩⟩

/-- A delta payload with `update_id = 4` and one bid level. -/
def exDelta4 : BybitBookPayload :=
  ⟨"orderbook.50|ETHUSDT", "delta", 10, ⟨[⟨50, 1⟩], [], 4, 7⟩⟩

/-- A delta payload with `update_id = 5` and one bid level. -/
def exDelta5 : BybitBookPayload :=
  ⟨"orderbook.50|ETHUSDT", "delta", 10, ⟨[⟨50, 1⟩], [], 5, 7⟩⟩

/-- An empty delta (no bids, no asks) with `update_id = 6`. -/
def exEmptyDelta6 : BybitBookPayload :=
  ⟨"orderbook.50|ETHUSDT", "delta", 10, ⟨[], [], 6, 7⟩⟩

/-- A snapshot payload with `update_id = 200` and disjoint levels
(spec §8 scenario 4). -/
def exSnap200 : BybitBookPayload :=
  ⟨"orderbook.50|ETHUSDT", "snapshot", 20, ⟨[⟨60, 20⟩, ⟨55, 10⟩], [⟨150, 1⟩], 200, 9⟩⟩

/-- An OKX book entry with bids best-first descending `[(60, 2), (50, 1)]`
and asks best-first ascending `[(140, 5), (150, 1)]`, the ordering OKX
delivers (compare the `books` test data of `exchange/okx/book/mod.rs`). -/
def exOkxInner : OkxOrderBookInner :=
  { asks := [⟨140, 5, 0, 1⟩, ⟨150, 1, 0, 1⟩]
    bids := [⟨60, 2, 0, 1⟩, ⟨50, 1, 0, 1⟩]
    ts := 1597026383085
    checksum := some 1
    seq_id := 123456 }

/-- A decoded OKX order-book message carrying `exOkxInner`. -/
def exOkxMsg : OkxOrderBook := ⟨"books|BTC-USDT", [exOkxInner]⟩

/-- An OKX book entry whose bid side is empty. -/
def exOkxEmptyBids : OkxOrderBookInner :=
  { asks := [⟨8476980 / 1000, 415, 0, 13⟩]
    bids := []
    ts := 1597026383085
    checksum := some 1
    seq_id := 123456 }

/-! Helper lemmas shared by several claims. -/

/-- Validation of a delta by an updater with at least one processed update
succeeds only for the contiguous `update_id = last_update_id + 1`. -/
theorem validate_delta_ok_id (self : BybitBookUpdater) (δ : BybitBookPayload)
    (hp : self.updates_processed ≠ 0)
    (h : self.validate_delta_update δ = .ok ()) :
    δ.data.update_id = self.last_update_id + 1 := by
  unfold BybitBookUpdater.validate_delta_update at h
  by_cases h1 : δ.data.update_id = 1
  · simp [h1] at h
  · rw [if_neg h1] at h
    by_cases h2 : δ.data.update_id = self.last_update_id + 1
    · exact h2
    · have hfirst : ¬ self.is_first_update := by
        simp [BybitBookUpdater.is_first_update, hp]
      simp [hfirst, h2] at h

/-- A payload deserialized as `BybitPayload<_, V>` carries a raw `type` tag
accepted by `V::validate_type` and equal to the input tag. -/
theorem deBybitPayload_ok_rtype (validate : String → Bool) (topic ty : String)
    (time : ℤ) (data : BybitOrderBookInner) (p : BybitBookPayload)
    (h : deBybitPayload validate topic ty time data = .ok p) :
    validate p.rtype = true ∧ p.rtype = ty := by
  unfold deBybitPayload at h
  cases hs : de_message_subscription_id topic with
  | error e => simp [hs] at h
  | ok sid =>
    rw [hs] at h
    unfold de_message_type at h
    by_cases hv : validate ty
    · rw [if_pos hv] at h
      cases h
      exact ⟨hv, rfl⟩
    · rw [if_neg hv] at h
      cases h

/-- A `type` tag rejected by `V::validate_type` makes the whole payload
deserialization fail. -/
theorem deBybitPayload_invalid_type (validate : String → Bool) (topic ty : String)
    (time : ℤ) (data : BybitOrderBookInner) (hv : validate ty = false) :
    ∃ e, deBybitPayload validate topic ty time data = .error e := by
  unfold deBybitPayload
  cases hs : de_message_subscription_id topic with
  | error e => exact ⟨e, by simp⟩
  | ok sid => exact ⟨"invalid message type", by simp [de_message_type, hv]⟩

/-! Claim C1. -/

/-- C1 counterexample: the claim fails on a freshly constructed updater
(`last_update_id = 0`, `updates_processed = 0`).  The delta `exDelta5` has
`update_id = 5`, which differs from `last + 1 = 1`, so the claim demands
the `InvalidSequence` error; `update` instead accepts it (the first
processed update skips the contiguity check). -/
theorem c1_first_delta_gap_accepted :
    exDelta5.data.update_id ≠ 1 ∧
    exDelta5.data.update_id ≠ BybitBookUpdater.new.last_update_id + 1 ∧
    (BybitBookUpdater.new.update book0 (.delta exDelta5)).output.isOk = true ∧
    (BybitBookUpdater.new.update book0 (.delta exDelta5)).output ≠
      Except.error (DataError.InvalidSequence
        (clampU64 BybitBookUpdater.new.last_update_id)
        (clampU64 exDelta5.data.update_id)) := by
  decide

/-- C1 (amended): a delta with `update_id = 1`, or a delta received by an
updater with `updates_processed ≠ 0` whose `update_id` differs from
`last_update_id + 1`, makes `update` return exactly
`InvalidSequence { prev_last_update_id: last.max(0), first_update_id: got.max(0) }`
and leaves the book and the updater unchanged; a first processed delta
(`updates_processed = 0`) with `update_id ≠ 1` is accepted instead. -/
theorem c1_delta_invalid_sequence_error (self : BybitBookUpdater)
    (book : OrderBook) (δ : BybitBookPayload)
    (h : δ.data.update_id = 1 ∨
      (self.updates_processed ≠ 0 ∧ δ.data.update_id ≠ self.last_update_id + 1)) :
    self.update book (.delta δ) =
      ⟨self, book, .error (.InvalidSequence (clampU64 self.last_update_id)
        (clampU64 δ.data.update_id))⟩ := by
  unfold BybitBookUpdater.update BybitBookUpdater.validate_delta_update
  rcases h with h1 | ⟨hp, hne⟩
  · simp [h1]
  · by_cases h1 : δ.data.update_id = 1
    · simp [h1]
    · have hfirst : ¬ self.is_first_update := by
        simp [BybitBookUpdater.is_first_update, hp]
      simp [h1, hfirst, hne]

/-- C1 witness: the live updater `(1, 3)` rejects the gapped delta
`exDelta2` (`update_id = 2 ≠ 4`) with `InvalidSequence {3, 2}`, leaving
book and updater untouched. -/
theorem c1_delta_invalid_sequence_error_witness :
    (BybitBookUpdater.mk 1 3).update book0 (.delta exDelta2) =
      ⟨BybitBookUpdater.mk 1 3, book0,
        .error (.InvalidSequence (clampU64 (BybitBookUpdater.mk 1 3).last_update_id)
          (clampU64 exDelta2.data.update_id))⟩ :=
  c1_delta_invalid_sequence_error (BybitBookUpdater.mk 1 3) book0 exDelta2
    (Or.inr ⟨by decide, by decide⟩)

/-! Claim C2. -/

/-- C2 counterexample: the empty delta `exEmptyDelta6` passes validation
against the live updater `(1, 5)` and advances `last_update_id` to 6, but
`update` returns `Ok(Some(book.snapshot()))`, not `Ok(None)` as the claim
states. -/
theorem c2_empty_delta_emits_snapshot :
    exEmptyDelta6.data.bids = [] ∧ exEmptyDelta6.data.asks = [] ∧
    updaterLive15.validate_delta_update exEmptyDelta6 = .ok () ∧
    (updaterLive15.update book0 (.delta exEmptyDelta6)).updater.last_update_id = 6 ∧
    (updaterLive15.update book0 (.delta exEmptyDelta6)).output ≠ Except.ok none := by
  decide

/-- C2 (amended): an empty delta that passes validation is accepted, still
advances `last_update_id` (and `updates_processed`), leaves both book
sides unchanged, and returns `Some(book.snapshot())` — a snapshot IS
emitted, not `None`. -/
theorem c2_empty_delta_accepted (self : BybitBookUpdater) (book : OrderBook)
    (δ : BybitBookPayload) (hb : δ.data.bids = []) (ha : δ.data.asks = [])
    (hv : self.validate_delta_update δ = .ok ()) :
    (self.update book (.delta δ)).updater.last_update_id = δ.data.update_id ∧
    (self.update book (.delta δ)).updater.updates_processed
      = self.updates_processed + 1 ∧
    (self.update book (.delta δ)).book.bids = book.bids ∧
    (self.update book (.delta δ)).book.asks = book.asks ∧
    (self.update book (.delta δ)).output
      = .ok (some ((self.update book (.delta δ)).book)) := by
  simp only [BybitBookUpdater.update, hv]
  simp [hb, ha, OrderBookSide.upsert, OrderBook.snapshot]

/-- C2 witness: the live updater `(1, 5)` accepts the empty delta
`exEmptyDelta6`, advancing to `update_id = 6` and emitting a snapshot. -/
theorem c2_empty_delta_accepted_witness :
    (updaterLive15.update book0 (.delta exEmptyDelta6)).updater.last_update_id
      = exEmptyDelta6.data.update_id ∧
    (updaterLive15.update book0 (.delta exEmptyDelta6)).updater.updates_processed
      = updaterLive15.updates_processed + 1 ∧
    (updaterLive15.update book0 (.delta exEmptyDelta6)).book.bids = book0.bids ∧
    (updaterLive15.update book0 (.delta exEmptyDelta6)).book.asks = book0.asks ∧
    (updaterLive15.update book0 (.delta exEmptyDelta6)).output
      = .ok (some ((updaterLive15.update book0 (.delta exEmptyDelta6)).book)) :=
  c2_empty_delta_accepted updaterLive15 book0 exEmptyDelta6 rfl rfl (by decide)

/-! Claim C3. -/

/-- C3 counterexample: at the spec's own re-seed scenario (live updater
with `updates_processed = 10`, snapshot `update_id = 200`), `update` sets
`last_update_id = 200` but `updates_processed` STAYS 10 — it is not reset
to 0 as the claim states. -/
theorem c3_snapshot_keeps_updates_processed :
    ((BybitBookUpdater.mk 10 103).update bookNonEmpty
      (.snapshot exSnap200)).updater.updates_processed = 10 ∧
    ((BybitBookUpdater.mk 10 103).update bookNonEmpty
      (.snapshot exSnap200)).updater.last_update_id = 200 ∧
    (10 : ℕ) ≠ 0 := by
  decide

/-- C3 (amended): for every updater (live or not) and incoming snapshot,
`update` replaces the book wholesale with the snapshot's levels, sets
`last_update_id` to the snapshot's `update_id`, emits the new book, and
leaves `updates_processed` unchanged (it is NOT reset to 0). -/
theorem c3_snapshot_replaces_book (self : BybitBookUpdater) (book : OrderBook)
    (s : BybitBookPayload) :
    self.update book (.snapshot s) =
      ⟨⟨self.updates_processed, s.data.update_id⟩, OrderBook.fromBybitSnapshot s,
        .ok (some (OrderBook.fromBybitSnapshot s))⟩ :=
  rfl

/-! Claim C4. -/

/-- C4 counterexample: a freshly initialized updater does NOT reject every
delta: it accepts `exDelta5` (`update_id = 5`), applies it to the book and
counts it as processed, instead of dropping deltas until a snapshot
arrives. -/
theorem c4_fresh_updater_accepts_delta :
    (BybitBookUpdater.new.update book0 (.delta exDelta5)).output.isOk = true ∧
    (BybitBookUpdater.new.update book0 (.delta exDelta5)).updater.updates_processed
      = 1 ∧
    (BybitBookUpdater.new.update book0 (.delta exDelta5)).book ≠ book0 := by
  decide

/-- C4 (amended): a freshly initialized updater rejects only deltas with
the reserved `update_id = 1` (leaving book and updater unchanged); every
delta with `update_id ≠ 1` is accepted as the first processed update and
applied to the book — deltas are not dropped while awaiting a snapshot. -/
theorem c4_fresh_updater_first_delta (book : OrderBook) (δ : BybitBookPayload) :
    (δ.data.update_id = 1 →
      BybitBookUpdater.new.update book (.delta δ) =
        ⟨BybitBookUpdater.new, book, .error (.InvalidSequence
          (clampU64 BybitBookUpdater.new.last_update_id)
          (clampU64 δ.data.update_id))⟩) ∧
    (δ.data.update_id ≠ 1 →
      (BybitBookUpdater.new.update book (.delta δ)).output.isOk = true ∧
      (BybitBookUpdater.new.update book (.delta δ)).updater.updates_processed = 1 ∧
      (BybitBookUpdater.new.update book (.delta δ)).updater.last_update_id
        = δ.data.update_id) := by
  constructor
  · intro h1
    unfold BybitBookUpdater.update BybitBookUpdater.validate_delta_update
    simp [h1]
  · intro h1
    unfold BybitBookUpdater.update BybitBookUpdater.validate_delta_update
    simp [h1, BybitBookUpdater.is_first_update, BybitBookUpdater.new,
      Except.isOk, Except.toBool]

/-- C4 witness: the fresh updater rejects `exDelta1` (`update_id = 1`) and
accepts `exDelta5` (`update_id = 5`) as its first processed update. -/
theorem c4_fresh_updater_first_delta_witness :
    (BybitBookUpdater.new.update book0 (.delta exDelta1) =
      ⟨BybitBookUpdater.new, book0, .error (.InvalidSequence
        (clampU64 BybitBookUpdater.new.last_update_id)
        (clampU64 exDelta1.data.update_id))⟩) ∧
    ((BybitBookUpdater.new.update book0 (.delta exDelta5)).output.isOk = true ∧
      (BybitBookUpdater.new.update book0 (.delta exDelta5)).updater.updates_processed
        = 1 ∧
      (BybitBookUpdater.new.update book0 (.delta exDelta5)).updater.last_update_id
        = exDelta5.data.update_id) :=
  ⟨(c4_fresh_updater_first_delta book0 exDelta1).1 (by decide),
    (c4_fresh_updater_first_delta book0 exDelta5).2 (by decide)⟩

/-! Claim C5. -/

/-- C5 counterexample: the freshly constructed updater (a reachable state,
it is the initial one) accepts the delta `exDelta0` with `update_id = 0`,
and `last_update_id` does not strictly increase (it stays 0). -/
theorem c5_first_delta_not_monotone :
    (BybitBookUpdater.new.update book0 (.delta exDelta0)).output.isOk = true ∧
    ¬ (BybitBookUpdater.new.last_update_id <
        (BybitBookUpdater.new.update book0 (.delta exDelta0)).updater.last_update_id) := by
  decide

/-- C5 (amended): after each accepted delta processed by an updater that
has already processed at least one update (`updates_processed ≠ 0`),
`last_update_id` strictly increases, to exactly `last_update_id + 1`; the
first accepted delta may set `last_update_id` arbitrarily. -/
theorem c5_live_delta_monotone (self : BybitBookUpdater) (book : OrderBook)
    (δ : BybitBookPayload) (r : Option OrderBook)
    (hp : self.updates_processed ≠ 0)
    (hok : (self.update book (.delta δ)).output = .ok r) :
    (self.update book (.delta δ)).updater.last_update_id
      = self.last_update_id + 1 ∧
    self.last_update_id < (self.update book (.delta δ)).updater.last_update_id := by
  cases hv : self.validate_delta_update δ with
  | error e =>
    simp only [BybitBookUpdater.update, hv] at hok
    cases hok
  | ok v =>
    cases v
    have hid := validate_delta_ok_id self δ hp hv
    simp only [BybitBookUpdater.update, hv]
    exact ⟨hid, by rw [hid]; exact lt_add_one self.last_update_id⟩

/-- C5 witness: the live updater `(1, 3)` accepts the contiguous delta
`exDelta4` and `last_update_id` strictly increases from 3 to 4. -/
theorem c5_live_delta_monotone_witness :
    ((BybitBookUpdater.mk 1 3).update book0 (.delta exDelta4)).updater.last_update_id
      = (BybitBookUpdater.mk 1 3).last_update_id + 1 ∧
    (BybitBookUpdater.mk 1 3).last_update_id <
      ((BybitBookUpdater.mk 1 3).update book0 (.delta exDelta4)).updater.last_update_id :=
  c5_live_delta_monotone (BybitBookUpdater.mk 1 3) book0 exDelta4
    (some ((BybitBookUpdater.mk 1 3).update book0 (.delta exDelta4)).book)
    (by decide) (by decide)

/-! Claim C9. -/

/-- C9: whenever `update` returns an error, the updater's own fields
(`updates_processed` and `last_update_id`) are unchanged as well as the
book: all validation occurs before any mutation. -/
theorem c9_error_leaves_state_unchanged (self : BybitBookUpdater)
    (book : OrderBook) (u : BybitBookUpdate) (e : DataError)
    (h : (self.update book u).output = .error e) :
    (self.update book u).updater = self ∧ (self.update book u).book = book := by
  cases u with
  | snapshot s =>
    simp [BybitBookUpdater.update, BybitBookUpdater.validate_snapshot_update] at h
  | delta d =>
    cases hv : self.validate_delta_update d with
    | error e2 => simp [BybitBookUpdater.update, hv]
    | ok v =>
      cases v
      simp [BybitBookUpdater.update, hv] at h

/-- C9 witness: the fresh updater errors on the reserved delta `exDelta1`
and both its fields and the book are left untouched. -/
theorem c9_error_leaves_state_unchanged_witness :
    (BybitBookUpdater.new.update book0 (.delta exDelta1)).updater
      = BybitBookUpdater.new ∧
    (BybitBookUpdater.new.update book0 (.delta exDelta1)).book = book0 :=
  c9_error_leaves_state_unchanged BybitBookUpdater.new book0 (.delta exDelta1)
    (DataError.InvalidSequence 0 1) (by decide)

/-! Claim C6. -/

/-- C6 counterexample: for the decoded OKX message `exOkxMsg` (bids
best-first descending `[(60,2),(50,1)]`, asks best-first ascending
`[(140,5),(150,1)]`, the order OKX delivers), the emitted `OrderBookL1`
carries `best_bid = (50,1)` and `best_ask = (150,1)` — the LAST vector
elements — whereas `bids.best() = (60,2)` and `asks.best() = (140,5)`. -/
theorem c6_l1_not_best_level :
    okxOrderBookToL1Events exOkxMsg
      = [some ⟨1597026383085, ⟨50, 1⟩, ⟨150, 1⟩⟩] ∧
    (OrderBookSide.new .buy (exOkxInner.bids.map OxkLevel.toLevel)).best
      = some ⟨60, 2⟩ ∧
    (OrderBookSide.new .sell (exOkxInner.asks.map OxkLevel.toLevel)).best
      = some ⟨140, 5⟩ ∧
    (⟨(50 : ℚ), 1⟩ : Level) ≠ ⟨60, 2⟩ := by
  decide

/-- C6 (amended): for every decoded OKX order-book entry with non-empty
sides, the emitted `OrderBookL1` takes `best_bid` from the LAST element of
the message's bid vector and `best_ask` from the LAST element of its ask
vector (`Vec::pop`), not from `bids.best()` / `asks.best()`; the two
coincide only when each side's vector ends with its best level. -/
theorem c6_l1_pops_last_level (book : OkxOrderBookInner) (bid ask : OxkLevel)
    (hb : book.bids.getLast? = some bid) (ha : book.asks.getLast? = some ask) :
    okxBookEventL1 book = some ⟨book.ts, bid.toLevel, ask.toLevel⟩ := by
  unfold okxBookEventL1
  rw [hb, ha]

/-- C6 witness: at `exOkxInner` the emitted L1 is built from the last bid
`(50,1)` and the last ask `(150,1)`. -/
theorem c6_l1_pops_last_level_witness :
    okxBookEventL1 exOkxInner =
      some ⟨exOkxInner.ts, (OxkLevel.mk 50 1 0 1).toLevel,
        (OxkLevel.mk 150 1 0 1).toLevel⟩ :=
  c6_l1_pops_last_level exOkxInner (OxkLevel.mk 50 1 0 1) (OxkLevel.mk 150 1 0 1)
    (by decide) (by decide)

/-! Claim C7. -/

/-- C7: the claim is right and the code is wrong.  On an OKX book entry
whose bid side is empty, the conversion calls `bids.pop().unwrap()` on
`None` and panics (modelled as `none`), instead of emitting the zero-level
sentinel the claim requires. -/
theorem c7_empty_side_panics :
    exOkxEmptyBids.bids = [] ∧
    okxBookEventL1 exOkxEmptyBids = none ∧
    okxOrderBookToL1Events ⟨"books|BTC-USDT", [exOkxEmptyBids]⟩ = [none] := by
  decide

/-! Claim C8. -/

/-- C8: decoding a Bybit topic string derives the canonical subscription
key: `"orderbook.50.ETHUSDT"` yields `"orderbook.50|ETHUSDT"`,
`"publicTrade.BTCUSDT"` yields `"publicTrade|BTCUSDT"`, and the
single-segment `"orderbook"` yields a decode error. -/
theorem c8_topic_key_decoding :
    de_message_subscription_id "orderbook.50.ETHUSDT"
      = .ok "orderbook.50|ETHUSDT" ∧
    de_message_subscription_id "publicTrade.BTCUSDT"
      = .ok "publicTrade|BTCUSDT" ∧
    de_message_subscription_id "orderbook"
      = .error "invalid message type expected pattern: <type>.<symbol>" := by
  decide

/-! Claim C10. -/

/-- C10: every successfully deserialized `BybitPayload<T, Snapshot>` has
its `type` field equal to `"snapshot"`, every successfully deserialized
`BybitPayload<T, Delta>` has its `type` field equal to `"delta"`, and a
frame whose `type` tag does not match the expected variant fails to
deserialize. -/
theorem c10_payload_type_tag :
    (∀ topic ty time data p,
      deBybitPayload validateTypeSnapshot topic ty time data = .ok p →
        p.rtype = "snapshot") ∧
    (∀ topic ty time data p,
      deBybitPayload validateTypeDelta topic ty time data = .ok p →
        p.rtype = "delta") ∧
    (∀ topic ty time data, validateTypeSnapshot ty = false →
      ∃ e, deBybitPayload validateTypeSnapshot topic ty time data = .error e) ∧
    (∀ topic ty time data, validateTypeDelta ty = false →
      ∃ e, deBybitPayload validateTypeDelta topic ty time data = .error e) := by
  refine ⟨?_, ?_, ?_, ?_⟩
  · intro topic ty time data p h
    have hval := (deBybitPayload_ok_rtype _ topic ty time data p h).1
    simpa [validateTypeSnapshot] using hval
  · intro topic ty time data p h
    have hval := (deBybitPayload_ok_rtype _ topic ty time data p h).1
    simpa [validateTypeDelta] using hval
  · intro topic ty time data hv
    exact deBybitPayload_invalid_type _ topic ty time data hv
  · intro topic ty time data hv
    exact deBybitPayload_invalid_type _ topic ty time data hv

/-- C10 witness: the snapshot-tagged frame deserializes with
`type = "snapshot"`, and the same frame fails to deserialize as a
`Delta`-expected payload. -/
theorem c10_payload_type_tag_witness :
    (BybitBookPayload.mk "orderbook.50|ETHUSDT" "snapshot" 0
      (BybitOrderBookInner.mk [] [] 2 3)).rtype = "snapshot" ∧
    ∃ e, deBybitPayload validateTypeDelta "orderbook.50.ETHUSDT" "snapshot" 0
      (BybitOrderBookInner.mk [] [] 2 3) = Except.error e :=
  ⟨c10_payload_type_tag.1 "orderbook.50.ETHUSDT" "snapshot" 0
      (BybitOrderBookInner.mk [] [] 2 3)
      (BybitBookPayload.mk "orderbook.50|ETHUSDT" "snapshot" 0
        (BybitOrderBookInner.mk [] [] 2 3)) (by decide),
    c10_payload_type_tag.2.2.2 "orderbook.50.ETHUSDT" "snapshot" 0
      (BybitOrderBookInner.mk [] [] 2 3) (by decide)⟩

end Barter
